/-
  A shallow embedding of src/src/utils/element2image.ts and proofs about it.

  The file models the three exported functions `copyImage`, `downloadImage`
  and `downloadPdf` as explicit state-passing functions over a small DOM
  model, recording their externally visible actions as a trace of effects.
  External collaborators (the html2canvas rasterizer, the canvas encoders,
  the jsPDF composer, the clipboard and the download anchor) are modelled
  as an environment of abstract functions and flags, following the
  collaborator contracts in the specification.
-/
import Mathlib

namespace Element2Image

/-- An element reference handed in by the caller. The functions never look
inside the element; they only pass it to the rasterizer, so an opaque
identifier suffices. -/
abbrev Elem := Nat

/-- A bitmap surface produced by the rasterizer: an in-memory pixel buffer
with intrinsic pixel dimensions. -/
structure Canvas where
  width : Nat
  height : Nat
deriving DecidableEq

/-- An encoded blob produced by `canvas.toBlob`: the binary encoding of a
bitmap. Only its provenance (the encoded bitmap's dimensions) matters to
the model. -/
structure Blob where
  width : Nat
  height : Nat
deriving DecidableEq

/-- Encoded image data, the result of `canvas.toDataURL(mimeType)`: a
string-encoded serialization of the bitmap, tagged with the MIME type the
caller asked for and carrying the bitmap's intrinsic dimensions (which
`jsPDF.getImageProperties` later reads back). -/
structure DataURL where
  mime : String
  width : Nat
  height : Nat
deriving DecidableEq

/-- Modelled from the spec: the encoder collaborator, "an encoder that maps
a bitmap to a format-tagged data string". `canvas.toDataURL(mimeType)`
returns encoded image data tagged with the requested MIME type. -/
def Canvas.toDataURL (c : Canvas) (mimeType : String) : DataURL :=
  { mime := mimeType, width := c.width, height := c.height }

/-- The document state visible to these functions: the list of node
identifiers attached to `document.body`, plus a counter supplying fresh
identifiers for `document.createElement`. -/
structure Dom where
  body : List Nat
  nextId : Nat
deriving DecidableEq

/-- Well-formedness of the document state: every node attached to the body
was created earlier, so its identifier is below the fresh-id counter. -/
def Dom.wf (d : Dom) : Prop := ∀ n ∈ d.body, n < d.nextId

/-- `document.createElement('a')`: returns a fresh node identifier; the new
node is not attached to the document. -/
def Dom.createElement (d : Dom) : Nat × Dom :=
  (d.nextId, { d with nextId := d.nextId + 1 })

/-- `document.body.appendChild(n)`: attaches node `n` at the end of the
body's child list. -/
def Dom.appendChild (d : Dom) (n : Nat) : Dom :=
  { d with body := d.body ++ [n] }

/-- `document.body.removeChild(n)`: detaches node `n` (the first occurrence
of its identifier) from the body's child list. -/
def Dom.removeChild (d : Dom) (n : Nat) : Dom :=
  { d with body := d.body.erase n }

/-- The image placed on the page by `pdf.addImage(data, format, x, y, w, h)`. -/
structure PdfPlacedImage where
  data : DataURL
  format : String
  x : ℚ
  y : ℚ
  w : ℚ
  h : ℚ
deriving DecidableEq

/-- Modelled from the spec: the document composer collaborator. `new jsPDF()`
constructs a single-page document of a standard page size; the code adds one
image to it and saves it, never adding a page. -/
structure SavedPdf where
  pageCount : Nat
  pageWidth : ℚ
  image : PdfPlacedImage
deriving DecidableEq

/-- One externally visible action of the functions, in program order. -/
inductive Effect where
  | clipboardWrite : String → Option Blob → Effect
  | appendChild : Nat → Effect
  | anchorClick : Nat → DataURL → String → Effect
  | removeChild : Nat → Effect
  | windowOpen : DataURL → Effect
  | pdfSave : String → SavedPdf → Effect
deriving DecidableEq

/-- The environment of external collaborators and platform capabilities. -/
structure Env where
  /-- Modelled from the spec: the rasterizer collaborator, mapping an
  attached element to a bitmap surface. -/
  rasterize : Elem → Canvas
  /-- Modelled from the spec: `canvas.toBlob`'s encoder, which hands the
  callback an encoded blob, or null when the bitmap cannot be encoded. -/
  encodeBlob : Canvas → Option Blob
  /-- Whether the platform supports the declarative download attribute on
  anchor elements, i.e. whether `typeof link.download === 'string'`. -/
  downloadSupported : Bool
  /-- Whether the platform clipboard write succeeds. The source never
  consults the promise returned by `navigator.clipboard.write`, so no
  definition below reads this field. -/
  clipboardWriteOk : Bool
  /-- Modelled from the spec: the standard page width reported by
  `pdf.internal.pageSize.getWidth()` (jsPDF default: A4 portrait, 210 mm). -/
  pageWidth : ℚ

/-- The failure surfaced when an operation is called on a null or undefined
element reference. -/
inductive Err where
  | nullElement
deriving DecidableEq

/-- Modelled from the spec: the rasterizer collaborator `html2canvas`.
Given an element it produces a bitmap surface; given a null or undefined
element reference the call fails (the returned promise rejects) rather
than producing an empty bitmap. -/
def html2canvas (env : Env) : Option Elem → Except Err Canvas
  | none => .error .nullElement
  | some e => .ok (env.rasterize e)

/-- The TypeScript default for the `fileName` parameter of `downloadImage`
and `downloadPdf`. -/
def defaultFileName : String := "image"

/-- The `fileExtension` parameter of `downloadImage`, restricted by its
TypeScript type to 'png' | 'jpg'. -/
inductive FileExtension where
  | png
  | jpg
deriving DecidableEq

/-- The literal text of a format selector. -/
def FileExtension.str : FileExtension → String
  | .png => "png"
  | .jpg => "jpg"

/-- The TypeScript default for the `fileExtension` parameter of
`downloadImage`. -/
def defaultFileExtension : FileExtension := .png

/-- Lean model of `copyImage` (element2image.ts lines 36 to 43):
rasterize the element, encode the bitmap to a blob, build a ClipboardItem
keyed "image/png" from `blob!` (a TypeScript non-null assertion, erased at
runtime, so the item is built from whatever the encoder handed over, null
included) and write it to the clipboard. The promise of the write is
dropped, so its outcome reaches no caller. -/
def copyImage (env : Env) (d : Dom) (element : Option Elem) :
    Except Err (Dom × List Effect) := do
  let canvas ← html2canvas env element
  let blob := env.encodeBlob canvas
  return (d, [Effect.clipboardWrite "image/png" blob])

/-- Lean model of `downloadImage` (element2image.ts lines 50 to 66):
rasterize the element, encode it with MIME type built from the format
selector, create an anchor; if the platform supports the download
attribute, set href and download name, attach the anchor, click it and
remove it; otherwise open the encoded data in a new browsing context. -/
def downloadImage (env : Env) (d : Dom) (element : Option Elem)
    (fileName : String) (fileExtension : FileExtension) :
    Except Err (Dom × List Effect) := do
  let canvas ← html2canvas env element
  let data := canvas.toDataURL ("image/" ++ fileExtension.str)
  let (link, d1) := d.createElement
  if env.downloadSupported then
    let name := fileName ++ "." ++ fileExtension.str
    let d2 := d1.appendChild link
    let d3 := d2.removeChild link
    return (d3, [Effect.appendChild link, Effect.anchorClick link data name,
      Effect.removeChild link])
  else
    return (d1, [Effect.windowOpen data])

/-- Lean model of `downloadPdf` (element2image.ts lines 72 to 83):
rasterize the element, encode it as PNG data, read the image's intrinsic
dimensions back from the data, compute the page height from the standard
page width and the image's aspect ratio, place the image at the origin
spanning the full page width, and save the single-page document. -/
def downloadPdf (env : Env) (d : Dom) (element : Option Elem)
    (fileName : String) : Except Err (Dom × List Effect) := do
  let canvas ← html2canvas env element
  let data := canvas.toDataURL "image/png"
  let pdfWidth : ℚ := env.pageWidth
  let pdfHeight : ℚ := ((data.height : ℚ) * pdfWidth) / (data.width : ℚ)
  return (d, [Effect.pdfSave (fileName ++ ".pdf")
    { pageCount := 1, pageWidth := pdfWidth,
      image := { data := data, format := "PNG", x := 0, y := 0,
                 w := pdfWidth, h := pdfHeight } }])

/-- The document `downloadPdf` hands to `pdf.save` when the rasterizer
produced the bitmap `c`: a single page of the standard width carrying one
image at the origin, spanning the page width, with height scaled by the
bitmap's aspect ratio. -/
def savedPdfOf (env : Env) (c : Canvas) : SavedPdf :=
  { pageCount := 1, pageWidth := env.pageWidth,
    image := { data := c.toDataURL "image/png", format := "PNG", x := 0, y := 0,
               w := env.pageWidth,
               h := ((c.height : ℚ) * env.pageWidth) / (c.width : ℚ) } }

/-- A concrete environment used to instantiate theorems with hypotheses:
the rasterizer yields a 3 by 5 bitmap, encoding succeeds, the download
attribute is supported, and the page is 210 units wide. -/
def sampleEnv : Env :=
  { rasterize := fun _ => { width := 3, height := 5 },
    encodeBlob := fun c => some { width := c.width, height := c.height },
    downloadSupported := true,
    clipboardWriteOk := true,
    pageWidth := 210 }

/-- A concrete empty, well-formed document state. -/
def sampleDom : Dom := { body := [], nextId := 0 }

/-- Helper: the closed form of `downloadImage` on an attached element when
the platform supports the download attribute. -/
theorem downloadImage_eq_of_supported (env : Env) (d : Dom) (e : Elem)
    (fn : String) (fext : FileExtension) (hs : env.downloadSupported = true) :
    downloadImage env d (some e) fn fext =
      .ok ({ body := (d.body ++ [d.nextId]).erase d.nextId, nextId := d.nextId + 1 },
        [Effect.appendChild d.nextId,
         Effect.anchorClick d.nextId
           ((env.rasterize e).toDataURL ("image/" ++ fext.str))
           (fn ++ "." ++ fext.str),
         Effect.removeChild d.nextId]) := by
  simp [downloadImage, html2canvas, hs, Dom.createElement, Dom.appendChild,
    Dom.removeChild]

/-- Helper: the closed form of `downloadImage` on an attached element when
the platform does not support the download attribute. -/
theorem downloadImage_eq_of_unsupported (env : Env) (d : Dom) (e : Elem)
    (fn : String) (fext : FileExtension) (hs : env.downloadSupported = false) :
    downloadImage env d (some e) fn fext =
      .ok ({ body := d.body, nextId := d.nextId + 1 },
        [Effect.windowOpen ((env.rasterize e).toDataURL ("image/" ++ fext.str))]) := by
  simp [downloadImage, html2canvas, hs, Dom.createElement]

/-- Helper: the closed form of `downloadPdf` on an attached element. -/
theorem downloadPdf_eq (env : Env) (d : Dom) (e : Elem) (fn : String) :
    downloadPdf env d (some e) fn =
      .ok (d, [Effect.pdfSave (fn ++ ".pdf") (savedPdfOf env (env.rasterize e))]) :=
  rfl

/-- C1: on an attached element, `downloadImage` with the default filename
and format selector "jpg" triggers a download named "image.jpg", and the
encoded data handed to the download anchor's href is tagged with the MIME
type built from the "jpg" selector. -/
theorem downloadImage_jpg_artifact (env : Env) (d : Dom) (e : Elem)
    (hs : env.downloadSupported = true) :
    ∃ dom2 link data,
      downloadImage env d (some e) defaultFileName FileExtension.jpg =
        .ok (dom2, [Effect.appendChild link,
          Effect.anchorClick link data "image.jpg",
          Effect.removeChild link]) ∧
      data.mime = "image/jpg" := by
  exact ⟨_, d.nextId, _,
    downloadImage_eq_of_supported env d e defaultFileName FileExtension.jpg hs, rfl⟩

/-- C1 witness: the property evaluated in the sample environment. -/
theorem downloadImage_jpg_artifact_witness :
    ∃ dom2 link data,
      downloadImage sampleEnv sampleDom (some 0) defaultFileName FileExtension.jpg =
        .ok (dom2, [Effect.appendChild link,
          Effect.anchorClick link data "image.jpg",
          Effect.removeChild link]) ∧
      data.mime = "image/jpg" :=
  downloadImage_jpg_artifact sampleEnv sampleDom 0 rfl

/-- C2: on an attached element of intrinsic width w greater than zero and
height h, the page height `downloadPdf` computes and hands to the composer
equals the standard page width times h divided by w, exactly. -/
theorem downloadPdf_height (env : Env) (d : Dom) (e : Elem) (fn : String)
    (_hw : 0 < (env.rasterize e).width) :
    ∃ doc, downloadPdf env d (some e) fn = .ok (d, [Effect.pdfSave (fn ++ ".pdf") doc]) ∧
      doc.image.h =
        env.pageWidth * ((env.rasterize e).height : ℚ) / ((env.rasterize e).width : ℚ) := by
  refine ⟨savedPdfOf env (env.rasterize e), downloadPdf_eq env d e fn, ?_⟩
  simp [savedPdfOf, mul_comm]

/-- C2 witness: in the sample environment the rasterized bitmap is 3 by 5
and the computed page height is 210 times 5 thirds, i.e. 350. -/
theorem downloadPdf_height_witness :
    ∃ doc, downloadPdf sampleEnv sampleDom (some 0) "image" =
        .ok (sampleDom, [Effect.pdfSave "image.pdf" doc]) ∧
      doc.image.h =
        sampleEnv.pageWidth * ((sampleEnv.rasterize 0).height : ℚ) /
          ((sampleEnv.rasterize 0).width : ℚ) :=
  downloadPdf_height sampleEnv sampleDom 0 "image" (by decide)

/-- C3: on an attached element, the downloaded file's name is exactly the
supplied filename, a dot, and the supplied format selector; in particular
the defaults (filename "image", format "png") give "image.png". -/
theorem downloadImage_name (env : Env) (d : Dom) (e : Elem) (fn : String)
    (fext : FileExtension) (hs : env.downloadSupported = true) :
    (∃ dom2 link data,
      downloadImage env d (some e) fn fext =
        .ok (dom2, [Effect.appendChild link,
          Effect.anchorClick link data (fn ++ "." ++ fext.str),
          Effect.removeChild link])) ∧
    defaultFileName ++ "." ++ defaultFileExtension.str = "image.png" := by
  exact ⟨⟨_, d.nextId, _, downloadImage_eq_of_supported env d e fn fext hs⟩, rfl⟩

/-- C3 witness: the property evaluated in the sample environment at the
default filename and format. -/
theorem downloadImage_name_witness :
    (∃ dom2 link data,
      downloadImage sampleEnv sampleDom (some 0) defaultFileName defaultFileExtension =
        .ok (dom2, [Effect.appendChild link,
          Effect.anchorClick link data
            (defaultFileName ++ "." ++ defaultFileExtension.str),
          Effect.removeChild link])) ∧
    defaultFileName ++ "." ++ defaultFileExtension.str = "image.png" :=
  downloadImage_name sampleEnv sampleDom 0 defaultFileName defaultFileExtension rfl

/-- C4: on the download-attribute-supported path over a well-formed
document, the anchor created by `downloadImage` is not in the body before
the call, the body after the call equals the body before, and the anchor is
not in the body after the call. -/
theorem downloadImage_anchor_scoped (env : Env) (d : Dom) (e : Elem)
    (fn : String) (fext : FileExtension) (hwf : d.wf)
    (hs : env.downloadSupported = true) :
    ∃ dom2 link data,
      downloadImage env d (some e) fn fext =
        .ok (dom2, [Effect.appendChild link,
          Effect.anchorClick link data (fn ++ "." ++ fext.str),
          Effect.removeChild link]) ∧
      link ∉ d.body ∧ dom2.body = d.body ∧ link ∉ dom2.body := by
  have hfresh : d.nextId ∉ d.body := fun hmem => absurd (hwf _ hmem) (by omega)
  have hbody : (d.body ++ [d.nextId]).erase d.nextId = d.body := by
    rw [List.erase_append_right _ hfresh, List.erase_cons_head, List.append_nil]
  refine ⟨_, d.nextId, _, downloadImage_eq_of_supported env d e fn fext hs,
    hfresh, hbody, ?_⟩
  simpa [hbody] using hfresh

/-- C4 witness: the anchor-scoping property evaluated in the sample
environment on an empty document. -/
theorem downloadImage_anchor_scoped_witness :
    ∃ dom2 link data,
      downloadImage sampleEnv sampleDom (some 0) "image" FileExtension.png =
        .ok (dom2, [Effect.appendChild link,
          Effect.anchorClick link data ("image" ++ "." ++ FileExtension.png.str),
          Effect.removeChild link]) ∧
      link ∉ sampleDom.body ∧ dom2.body = sampleDom.body ∧ link ∉ dom2.body :=
  downloadImage_anchor_scoped sampleEnv sampleDom 0 "image" FileExtension.png
    (by simp [Dom.wf, sampleDom]) rfl

/-- C5: on a rasterizable element, one call to `copyImage` produces exactly
one clipboard write, its payload is keyed "image/png", and the document
state is returned unchanged (zero DOM mutations). -/
theorem copyImage_one_png_write (env : Env) (d : Dom) (e : Elem) :
    ∃ payload, copyImage env d (some e) =
      .ok (d, [Effect.clipboardWrite "image/png" payload]) :=
  ⟨env.encodeBlob (env.rasterize e), rfl⟩

/-- C6: the value `copyImage` returns to the caller does not depend on
whether the platform clipboard write succeeds, and on a rasterizable
element its only observable side effect is the one clipboard write. -/
theorem copyImage_outcome_not_surfaced (env : Env) (b : Bool) (d : Dom)
    (element : Option Elem) :
    copyImage { env with clipboardWriteOk := b } d element =
      copyImage env d element ∧
    ∀ e, ∃ payload, copyImage env d (some e) =
      .ok (d, [Effect.clipboardWrite "image/png" payload]) := by
  constructor
  · cases element <;> simp [copyImage, html2canvas]
  · exact fun e => ⟨env.encodeBlob (env.rasterize e), rfl⟩

/-- C7: on an attached element, exactly when the platform does not support
the download attribute, the trace is a single new-browsing-context opening
of the encoded data; when it is supported, the trace is the anchor download
sequence and contains no new-browsing-context opening. -/
theorem downloadImage_fallback (env : Env) (d : Dom) (e : Elem) (fn : String)
    (fext : FileExtension) :
    (env.downloadSupported = false →
      ∃ dom2 data, downloadImage env d (some e) fn fext =
        .ok (dom2, [Effect.windowOpen data])) ∧
    (env.downloadSupported = true →
      ∃ dom2 link data, downloadImage env d (some e) fn fext =
        .ok (dom2, [Effect.appendChild link,
          Effect.anchorClick link data (fn ++ "." ++ fext.str),
          Effect.removeChild link])) := by
  constructor
  · intro hs
    exact ⟨_, _, downloadImage_eq_of_unsupported env d e fn fext hs⟩
  · intro hs
    exact ⟨_, d.nextId, _, downloadImage_eq_of_supported env d e fn fext hs⟩

/-- C7 witness: both branches evaluated at concrete environments, one with
the download attribute unsupported and the sample one with it supported. -/
theorem downloadImage_fallback_witness :
    (∃ dom2 data,
      downloadImage { sampleEnv with downloadSupported := false } sampleDom
        (some 0) "image" FileExtension.png = .ok (dom2, [Effect.windowOpen data])) ∧
    (∃ dom2 link data,
      downloadImage sampleEnv sampleDom (some 0) "image" FileExtension.png =
        .ok (dom2, [Effect.appendChild link,
          Effect.anchorClick link data ("image" ++ "." ++ FileExtension.png.str),
          Effect.removeChild link])) :=
  ⟨(downloadImage_fallback { sampleEnv with downloadSupported := false }
      sampleDom 0 "image" FileExtension.png).1 rfl,
   (downloadImage_fallback sampleEnv sampleDom 0 "image" FileExtension.png).2 rfl⟩

/-- C8: each of the three operations, called with a null or undefined
element reference, surfaces a failure: no artifact is produced at all. -/
theorem null_element_fails (env : Env) (d : Dom) (fn : String)
    (fext : FileExtension) :
    copyImage env d none = .error Err.nullElement ∧
    downloadImage env d none fn fext = .error Err.nullElement ∧
    downloadPdf env d none fn = .error Err.nullElement := by
  refine ⟨?_, ?_, ?_⟩ <;> rfl

/-- C9: on an attached element, `downloadPdf` saves a single-page document
whose image is placed at the page origin spanning the full standard page
width, downloaded under the supplied filename with the ".pdf" extension;
the default filename yields "image.pdf". -/
theorem downloadPdf_single_page (env : Env) (d : Dom) (e : Elem) (fn : String) :
    (∃ doc, downloadPdf env d (some e) fn =
        .ok (d, [Effect.pdfSave (fn ++ ".pdf") doc]) ∧
      doc.pageCount = 1 ∧ doc.image.x = 0 ∧ doc.image.y = 0 ∧
      doc.image.w = env.pageWidth ∧ doc.pageWidth = env.pageWidth) ∧
    defaultFileName ++ ".pdf" = "image.pdf" :=
  ⟨⟨savedPdfOf env (env.rasterize e),
    downloadPdf_eq env d e fn, rfl, rfl, rfl, rfl, rfl⟩, rfl⟩

/-- C10: `copyImage` guards nowhere against the encoder yielding no blob:
whenever the blob encoding of the rasterized bitmap is null, the call still
succeeds and the clipboard item is built from the null payload instead of
the operation failing before the write. -/
theorem copyImage_null_blob (env : Env) (d : Dom) (e : Elem)
    (hb : env.encodeBlob (env.rasterize e) = none) :
    copyImage env d (some e) =
      .ok (d, [Effect.clipboardWrite "image/png" none]) := by
  simp [copyImage, html2canvas, hb]

/-- C10 witness: in an environment whose encoder always yields null, the
clipboard write is performed with a null payload. -/
theorem copyImage_null_blob_witness :
    copyImage { sampleEnv with encodeBlob := fun _ => none } sampleDom (some 0) =
      .ok (sampleDom, [Effect.clipboardWrite "image/png" none]) :=
  copyImage_null_blob { sampleEnv with encodeBlob := fun _ => none }
    sampleDom 0 rfl

end Element2Image
